import Mathlib

/-!
Shallow embedding of the workingFUZE backend's shared-JSON-document core
(src/backend/main.py and src/backend/admin.py): the document data model,
the payment/quote operation, order expiry sweeping, admin reply booking,
profile cascade deletion, the id allocation of chats and messages, the
load/save discipline of the two document stores, and the IEEE-754 double
semantics of the bonus computation.

Timestamps are modelled as integers (seconds); `datetime.now()` is passed
in explicitly as `now`, and `timedelta(hours=1)` is `3600`.  Money fields
are rationals.  Python `None`-able values are `Option`s.
-/

/-- Generic helper: update the first element satisfying `p` by `f`, leave
the rest unchanged.  Models the Python idiom
`next((o for o in orders if pred(o)), None)` followed by in-place mutation
of the found dict (main.py lines 1335-1348). -/
def updateFirst (p : α → Bool) (f : α → α) : List α → List α
  | [] => []
  | x :: xs => if p x then f x :: xs else x :: updateFirst p f xs

/-- Generic helper: update the last element satisfying `p` by `f`.  Models
the Python idiom `matching = [o for o in orders if pred(o)]` followed by
in-place mutation of `matching[-1]` (admin.py lines 700-708 and
3684-3690). -/
def updLast (p : α → Bool) (f : α → α) : List α → List α
  | [] => []
  | x :: xs =>
    if xs.any p then x :: updLast p f xs
    else if p x then f x :: xs
    else x :: xs

/-- Does the character list `h` start with `n`? -/
def startsWithL : List Char → List Char → Bool
  | [], _ => true
  | _ :: _, [] => false
  | a :: as, b :: bs => a == b && startsWithL as bs

/-- Substring test on character lists (needle, haystack). -/
def containsSub (n : List Char) : List Char → Bool
  | [] => startsWithL n []
  | c :: t => startsWithL n (c :: t) || containsSub n t

/-- Models Python `"payment successful" in text.lower()`
(admin.py lines 698 and 3682): the text is lowercased character-wise and
searched for the (already lowercase) needle. -/
def containsPaymentSuccess (text : String) : Bool :=
  containsSub "payment successful".data (text.data.map Char.toLower)

/-- Python truthiness of an optional integer (`if not profile_id`,
`if chat_id:`): `None` and `0` are falsy. -/
def truthyOptInt : Option ℤ → Bool
  | none => false
  | some k => k != 0

/- ===================== Data model (section 3 of the spec) ============== -/

/-- An entry of `data["orders"]` as built by main.py lines 1354-1367. -/
structure Order where
  id : ℤ
  order_number : String
  profile_id : ℤ
  amount : ℚ
  bonus_amount : ℚ
  total_amount : ℚ
  crypto_type : Option String
  currency : String
  status : String
  created_at : ℤ
  expires_at : Option ℤ
  booked_at : Option ℤ := none
  telegram_user_id : Option String
deriving DecidableEq, Repr

/-- An entry of `data["chats"]` (main.py lines 963-969). -/
structure Chat where
  id : ℤ
  profile_id : ℤ
  profile_name : String
  telegram_user_id : Option String
  created_at : ℤ
deriving DecidableEq, Repr

/-- An entry of `data["messages"]` (main.py lines 973-978, text branch). -/
structure Message where
  id : ℤ
  chat_id : ℤ
  text : String
  is_from_user : Bool
  created_at : ℤ
deriving DecidableEq, Repr

/-- An entry of `data["profiles"]` (fields the core logic reads). -/
structure Profile where
  id : ℤ
  name : String
  visible : Bool := true
deriving DecidableEq, Repr

/-- An entry of `data["comments"]` (fields the core logic reads). -/
structure Comment where
  profile_id : ℤ
  text : String
deriving DecidableEq, Repr

/-- `data["settings"]`: the fields the core logic reads.
`bonus_percentage` is `none` when the key is absent
(main.py line 1327 reads it with default 5). -/
structure Settings where
  bonus_percentage : Option ℚ := none
  crypto_wallets : List (String × String) := []
deriving DecidableEq, Repr

/-- The root JSON document (top-level keys of data.json). -/
structure Document where
  profiles : List Profile := []
  vip_profiles : List Profile := []
  chats : List Chat := []
  messages : List Message := []
  comments : List Comment := []
  promocodes : List String := []
  orders : List Order := []
  settings : Settings := {}
deriving DecidableEq, Repr

/- ===================== OrderLedger: quote (main.py 1326-1371) ========= -/

/-- The unpaid-order filter of main.py lines 1335-1338: same profile,
status unpaid, same telegram user. -/
def unpaidPred (pid : ℤ) (tg : Option String) (o : Order) : Bool :=
  o.profile_id == pid && o.status == "unpaid" && o.telegram_user_id == tg

/-- The in-place update of an existing unpaid order,
main.py lines 1342-1347. -/
def quoteUpdate (amount : ℚ) (wallet : Option String) (currency : String)
    (now : ℤ) (pct : ℚ) (o : Order) : Order :=
  { o with
    amount := amount
    bonus_amount := amount * (pct / 100)
    total_amount := amount + amount * (pct / 100)
    crypto_type := wallet
    currency := currency
    expires_at := some (now + 3600) }

/-- Number of unpaid orders for a (profile, telegram user) pair. -/
def unpaidCount (pid : ℤ) (tg : Option String) (d : Document) : ℕ :=
  (d.orders.filter (unpaidPred pid tg)).length

/-- The success path of main.py `process_crypto_payment`
(lines 1326-1371): compute bonus and total, then either update the first
existing unpaid order for the (profile, telegram user) pair in place, or
append a fresh unpaid order with id `max(existing ids, 0) + 1` and the
given random `code` as order number.  The money arithmetic is written
here with exact rationals; its IEEE-754 double semantics is modelled
separately below by `bonusFloat`/`totalFloat`. -/
def quoteOrder (pid : ℤ) (tg : Option String) (amount : ℚ)
    (wallet : Option String) (currency : String) (code : String)
    (now : ℤ) (d : Document) : Document :=
  let pct := d.settings.bonus_percentage.getD 5
  if d.orders.any (unpaidPred pid tg) then
    { d with orders := updateFirst (unpaidPred pid tg)
                         (quoteUpdate amount wallet currency now pct) d.orders }
  else
    let maxId := d.orders.foldl (fun m o => max m o.id) 0
    let o : Order :=
      { id := maxId + 1
        order_number := code
        profile_id := pid
        amount := amount
        bonus_amount := amount * (pct / 100)
        total_amount := amount + amount * (pct / 100)
        crypto_type := wallet
        currency := currency
        status := "unpaid"
        created_at := now
        expires_at := some (now + 3600)
        booked_at := none
        telegram_user_id := tg }
    { d with orders := d.orders ++ [o] }

/- ============ Payment endpoint validation (main.py 1313-1321) ========= -/

/-- How `process_crypto_payment` aborts: `keyError` models an uncaught
Python `KeyError` from `payment_data["profile_id"]` /
`payment_data["amount"]` (surfaced by the framework as a 500 server
error); `badRequest` models `HTTPException(status_code=400)`. -/
inductive PayErr where
  | keyError
  | badRequest
deriving DecidableEq, Repr

/-- Whether the abort reaches the client as a 4xx client error. -/
def PayErr.isClientError : PayErr → Bool
  | .badRequest => true
  | .keyError => false

/-- The request body of POST /api/payment/crypto.  For `profile_id`,
`none` means the key is absent (subscripting raises KeyError),
`some none` means the key holds JSON null, `some (some k)` an integer.
For `amount`, `none` means the key is absent; otherwise the value as the
double produced by `float(...)`. -/
structure PaymentReq where
  profile_id : Option (Option ℤ)
  amount : Option ℚ
  currency : Option String := none
  wallet : Option String := none
deriving DecidableEq, Repr

/-- main.py `process_crypto_payment`, lines 1313-1371: reads
`payment_data["profile_id"]` (KeyError when absent), then
`float(payment_data["amount"])` (KeyError when absent), rejects with 400
when `not profile_id or amount <= 0`, and otherwise runs the quote
operation. -/
def processCryptoPayment (req : PaymentReq) (tg : Option String)
    (code : String) (now : ℤ) (d : Document) : Except PayErr Document :=
  match req.profile_id with
  | none => .error .keyError
  | some pidv =>
    match req.amount with
    | none => .error .keyError
    | some amount =>
      match pidv with
      | none => .error .badRequest
      | some pid =>
        if pid = 0 ∨ amount ≤ 0 then .error .badRequest
        else
          .ok (quoteOrder pid tg amount req.wallet (req.currency.getD "USD")
                 code now d)

/-- The endpoint's effect on the persisted document: `save_data` runs only
on the success path, so an abort leaves the stored document untouched. -/
def paymentEndpoint (req : PaymentReq) (tg : Option String) (code : String)
    (now : ℤ) (stored : Document) : Document × Option PayErr :=
  match processCryptoPayment req tg code now stored with
  | .ok d1 => (d1, none)
  | .error e => (stored, some e)

/- ======= ExpirySweeper (main.py 217-241 / admin.py 748-772) =========== -/

/-- The keep-filter of `cleanup_expired_orders` (identical in both
processes): keep an order when its status is not unpaid, or when it has a
(truthy) `expires_at` strictly dated after `now`. -/
def keepOrder (now : ℤ) (o : Order) : Bool :=
  o.status != "unpaid" ||
    (match o.expires_at with
     | some t => decide (now < t)
     | none => false)

/-- One sweep of `cleanup_expired_orders` over a loaded document. -/
def cleanupExpiredOrders (now : ℤ) (d : Document) : Document :=
  { d with orders := d.orders.filter (keepOrder now) }

/- ============= ChatRegistry: send_message (main.py 921-998) =========== -/

/-- main.py `send_message` (text branch): find the caller's chat for the
profile or create one with id `len(chats) + 1`, then append a message with
id `len(messages) + 1`.  Returns `none` when the profile does not exist
(HTTP 404). -/
def sendMessage (pid : ℤ) (tg : Option String) (text : String) (now : ℤ)
    (d : Document) : Option Document :=
  match d.profiles.find? (fun p => p.id == pid) with
  | none => none
  | some profile =>
    match d.chats.find? (fun c => c.profile_id == pid && c.telegram_user_id == tg) with
    | some chat =>
      some { d with messages := d.messages ++
        [{ id := (d.messages.length : ℤ) + 1, chat_id := chat.id,
           text := text, is_from_user := true, created_at := now }] }
    | none =>
      let chat : Chat :=
        { id := (d.chats.length : ℤ) + 1, profile_id := pid,
          profile_name := profile.name, telegram_user_id := tg,
          created_at := now }
      some { d with
        chats := d.chats ++ [chat],
        messages := d.messages ++
          [{ id := (d.messages.length : ℤ) + 1, chat_id := chat.id,
             text := text, is_from_user := true, created_at := now }] }

/- ============== delete_profile (admin.py 3513-3534) =================== -/

/-- admin.py `delete_profile`: drop the profile, its chats, the messages
whose `chat_id` is among the removed chats' ids, and its comments.
`orders`, `settings`, `promocodes` and `vip_profiles` are not touched. -/
def deleteProfile (pid : ℤ) (d : Document) : Document :=
  let chatIds := (d.chats.filter (fun c => c.profile_id == pid)).map (fun c => c.id)
  { d with
    profiles := d.profiles.filter (fun p => p.id != pid)
    chats := d.chats.filter (fun c => c.profile_id != pid)
    messages := d.messages.filter (fun m => !(chatIds.contains m.chat_id))
    comments := d.comments.filter (fun c => c.profile_id != pid) }

/- ======== Admin replies and payment confirmation (admin.py) =========== -/

/-- The order filter of the Telegram reply path (admin.py lines 700-703):
profile matches, status unpaid, and — only when a telegram user id is
known — the order's telegram user matches. -/
def bookPredT (pid : ℤ) (tg : Option String) (o : Order) : Bool :=
  o.profile_id == pid && o.status == "unpaid" &&
    (tg == none || o.telegram_user_id == tg)

/-- The order filter of the admin HTTP reply path (admin.py lines
3684-3685): profile matches and status unpaid; the telegram user id of
the request is not consulted. -/
def bookPredH (pid : ℤ) (o : Order) : Bool :=
  o.profile_id == pid && o.status == "unpaid"

/-- The booking transition (admin.py lines 707-708 and 3689-3690). -/
def bookOrder (now : ℤ) (o : Order) : Order :=
  { o with status := "booked", booked_at := some now }

/-- admin.py `send_admin_reply_from_telegram` (lines 650-712, text path):
look up the profile (silently return on miss), find or create the chat for
the (profile, telegram user) pair — profile alone with a falsy stored user
id when `tg` is absent —, append the admin message, and, when the text
contains "payment successful" case-insensitively, book the last unpaid
order matching `bookPredT`. -/
def sendAdminReplyFromTelegram (pid : ℤ) (text : String) (tg : Option String)
    (now : ℤ) (d : Document) : Document :=
  match d.profiles.find? (fun p => p.id == pid) with
  | none => d
  | some profile =>
    let chat? : Option Chat :=
      match tg with
      | some _ => d.chats.find? (fun c => c.profile_id == pid && c.telegram_user_id == tg)
      | none => d.chats.find? (fun c => c.profile_id == pid && c.telegram_user_id == none)
    let st : List Chat × ℤ :=
      match chat? with
      | some c => (d.chats, c.id)
      | none => (d.chats ++ [{ id := (d.chats.length : ℤ) + 1, profile_id := pid,
                               profile_name := profile.name, telegram_user_id := tg,
                               created_at := now }], (d.chats.length : ℤ) + 1)
    let messages1 := d.messages ++
      [{ id := (d.messages.length : ℤ) + 1, chat_id := st.2, text := text,
         is_from_user := false, created_at := now }]
    let orders1 :=
      if containsPaymentSuccess text then
        updLast (bookPredT pid tg) (bookOrder now) d.orders
      else d.orders
    { d with chats := st.1, messages := messages1, orders := orders1 }

/-- admin.py `send_admin_reply` (lines 3594-3695, text-only path): 404 on
missing profile (`none`), chat lookup by truthy `chat_id`, else by truthy
`telegram_user_id`, else any chat of the profile, creating one when none
matches; empty text is rejected with 400 (`none`) before saving; a text
containing "payment successful" books the last unpaid order of the
profile — `bookPredH` ignores the telegram user id. -/
def sendAdminReply (pid : ℤ) (chatId : Option ℤ) (tg : Option String)
    (text : String) (now : ℤ) (d : Document) : Option Document :=
  match d.profiles.find? (fun p => p.id == pid) with
  | none => none
  | some profile =>
    let chat? : Option Chat :=
      if truthyOptInt chatId then d.chats.find? (fun c => some c.id == chatId)
      else
        match tg with
        | some _ => d.chats.find? (fun c => c.profile_id == pid && c.telegram_user_id == tg)
        | none => d.chats.find? (fun c => c.profile_id == pid)
    let st : List Chat × ℤ :=
      match chat? with
      | some c => (d.chats, c.id)
      | none => (d.chats ++ [{ id := (d.chats.length : ℤ) + 1, profile_id := pid,
                               profile_name := profile.name, telegram_user_id := tg,
                               created_at := now }], (d.chats.length : ℤ) + 1)
    if text = "" then none
    else
      let messages1 := d.messages ++
        [{ id := (d.messages.length : ℤ) + 1, chat_id := st.2, text := text,
           is_from_user := false, created_at := now }]
      let orders1 :=
        if containsPaymentSuccess text then
          updLast (bookPredH pid) (bookOrder now) d.orders
        else d.orders
      some { d with chats := st.1, messages := messages1, orders := orders1 }

/- ========== DocumentStore: backing file, load and save ================ -/

/-- Contents of a file on disk: either a complete serialized document, or
a truncated/partially-written (hence unparseable) byte sequence. -/
inductive FileContent where
  | truncated
  | full (d : Document)
deriving DecidableEq, Repr

/-- The filesystem as both stores see it: the canonical `data.json` path
and the temporary sibling `data.json.tmp` path, each possibly absent. -/
structure FS where
  canonical : Option FileContent
  temp : Option FileContent
deriving DecidableEq, Repr

/-- The document main.py `load_data` builds when the backing file does not
exist (lines 288-359): empty collections plus populated default settings. -/
def defaultDataMain : Document :=
  { settings :=
      { bonus_percentage := none
        crypto_wallets :=
          [("trc20", "TY76gU8J9o8j7U6tY5r4E3W2Q1"),
           ("erc20", "0x8a9C6e5D8b0E2a1F3c4B6E7D8C9A0B1C2D3E4F5"),
           ("bnb", "bnb1q3e5r7t9y1u3i5o7p9l1k3j5h7g9f2d4s6q8w0")] } }

/-- The fallback document main.py `load_data` substitutes when reading or
parsing the backing file raises (lines 389-405): every collection empty,
and a settings record whose wallet table is empty. -/
def errorDataMain : Document :=
  { settings := { bonus_percentage := none, crypto_wallets := [] } }

/-- The fallback document admin.py `load_data` substitutes when reading or
parsing the backing file raises (lines 988-1056): every collection empty,
and a settings record carrying the hardcoded default wallet table (no
`bonus_percentage` key). -/
def errorDataAdmin : Document :=
  { settings :=
      { bonus_percentage := none
        crypto_wallets :=
          [("trc20", "TY76gU8J9o8j7U6tY5r4E3W2Q1"),
           ("erc20", "0x8a9C6e5D8b0E2a1F3c4B6E7D8C9A0B1C2D3E4F5"),
           ("bnb", "bnb1q3e5r7t9y1u3i5o7p9l1k3j5h7g9f2d4s6q8w0"),
           ("btc", "bc1qxy2kgdygjrsqtzq2n0yrf2493p83kkfjhx0wlh"),
           ("zetcash", "ZET1234567890abcdefghijklmnopqrstuvwxyz"),
           ("doge", "DH5yaieqoZN36fDVciNyRueRGvGLR3mr7L"),
           ("dash", "XnPBzXq3bRhQKjVqZvXmG5jKqVmPdWZgFj"),
           ("ltc", "LhK3pXq2BvRsQmNp7TyUjGkLmPqRsXwZyF"),
           ("usdt_bep20", "0x8b9C7e5D9b1E3a2F4c5B7E8D9C0A1B2C3D4E5F6"),
           ("eth", "0x7a8B6d4C8e0D2b1F3a4C5E6D7F8A9B0C1D2E3F4"),
           ("usdc_erc20", "0x6a7B5c3D7e9C1a0F2b3D4F5E6A7B8C9D0E1F2A3")] } }

/-- main.py `load_data` (lines 271-405) as a function of the canonical
file's contents: missing file gives the default document, an unparseable
file is caught and gives the fallback document, a parseable file gives its
document (top-level back-filling is the identity in this typed model,
since every section is always present).  The function is total: no input
makes it raise. -/
def loadDataMain : Option FileContent → Document
  | none => defaultDataMain
  | some .truncated => errorDataMain
  | some (.full d) => d

/-- admin.py `load_data` (lines 848-1056): like `loadDataMain` but with
admin defaults, and back-filling `settings.bonus_percentage` with 5 when
the key is absent (line 930-931).  Total as well. -/
def loadDataAdmin : Option FileContent → Document
  | none => { errorDataAdmin with settings :=
                { errorDataAdmin.settings with bonus_percentage := some 5 } }
  | some .truncated => errorDataAdmin
  | some (.full d) =>
      { d with settings :=
          { d.settings with
            bonus_percentage := some (d.settings.bonus_percentage.getD 5) } }

/-- What a reader of the canonical path observes in a given filesystem
state (through main.py's `load_data`, cache cold). -/
def readDocument (fs : FS) : Document :=
  loadDataMain fs.canonical

/-- main.py `save_data` (lines 407-432) as the sequence of filesystem
states a crash could freeze: initial state; temp file opened and partially
written; temp file completely written (`json.dump` done); canonical file
removed (`os.remove`); temp renamed onto the canonical path
(`os.rename`). -/
def mainSaveStates (d : Document) (fs : FS) : List FS :=
  let s1 : FS := { fs with temp := some .truncated }
  let s2 : FS := { fs with temp := some (.full d) }
  let s3 : FS := { s2 with canonical := none }
  let s4 : FS := { fs with canonical := some (.full d), temp := none }
  [fs, s1, s2, s3, s4]

/-- admin.py `save_data` (lines 1059-1067) as the sequence of filesystem
states a crash could freeze: initial state; canonical file opened with
mode "w" (truncated) and partially written; write completed.  No temporary
file and no rename are involved. -/
def adminSaveStates (d : Document) (fs : FS) : List FS :=
  let s1 : FS := { fs with canonical := some .truncated }
  let s2 : FS := { fs with canonical := some (.full d) }
  [fs, s1, s2]

/- ====== Reference semantics of the cache and dict.copy (main.py) ====== -/

/-- The top-level document dict as Python holds it: a mapping from the
top-level keys to references (heap addresses) of the nested list objects.
Only the two collections needed below are modelled. -/
structure DocDict where
  ordersA : ℕ
  chatsA : ℕ
deriving DecidableEq, Repr

/-- The Python heap of nested list objects, addressed by index. -/
structure PyHeap where
  orderObjs : List (List Order)
  chatObjs : List (List Chat)
deriving DecidableEq, Repr

/-- Python `dict.copy()` (main.py lines 279, 285, 387): a fresh top-level
mapping holding the same references — nested list objects are shared, not
copied. -/
def dictCopy (r : DocDict) : DocDict :=
  { ordersA := r.ordersA, chatsA := r.chatsA }

/-- The `orders` collection a holder of dict `r` sees on heap `h`. -/
def ordersView (h : PyHeap) (r : DocDict) : List Order :=
  h.orderObjs.getD r.ordersA []

/-- A caller mutating its returned document in place:
`data["orders"].append(o)` mutates the shared heap object referenced by
the dict. -/
def appendOrderViaDict (h : PyHeap) (r : DocDict) (o : Order) : PyHeap :=
  { h with orderObjs := h.orderObjs.set r.ordersA (ordersView h r ++ [o]) }

/-- The store's in-process state: the heap and the cached dict
(`_data_cache`). -/
structure StoreState where
  heap : PyHeap
  cache : DocDict
deriving DecidableEq, Repr

/-- `load_data` on a cache hit (main.py lines 278-279): returns
`_data_cache.copy()`, a shallow copy of the cached dict. -/
def loadCacheHit (s : StoreState) : DocDict :=
  dictCopy s.cache

/- ========= IEEE-754 double semantics of the bonus computation ========= -/

/-- An exact fraction, numerator and (positive) denominator, used to model
Python float values and the exact intermediate results of float
operations without normalization. -/
abbrev F2 := ℤ × ℤ

/-- Bit length of a natural number (fuel-based, enough fuel for any
number arising in double-precision arithmetic). -/
def bitsAux : ℕ → ℕ → ℕ
  | 0, _ => 0
  | f + 1, n => if n = 0 then 0 else bitsAux f (n / 2) + 1

/-- Bit length of a natural number. -/
def nbits (n : ℕ) : ℕ := bitsAux 1200 n

/-- Comparison of fractions with positive denominators. -/
def fracLe (x y : F2) : Bool := x.1 * y.2 ≤ y.1 * x.2

/-- The fraction 2 ^ e. -/
def pow2F (e : ℤ) : F2 :=
  if 0 ≤ e then ((2 ^ e.toNat : ℤ), 1) else (1, (2 ^ (-e).toNat : ℤ))

/-- For a positive fraction `x`, the binade exponent: the integer `e`
with 2 ^ e ≤ x < 2 ^ (e + 1), located from the bit lengths of numerator
and denominator and fixed up by direct comparison. -/
def fexp (x : F2) : ℤ :=
  let a : ℤ := (nbits x.1.toNat : ℤ) - (nbits x.2.toNat : ℤ)
  if fracLe (pow2F (a + 1)) x then a + 1
  else if fracLe (pow2F a) x then a
  else if fracLe (pow2F (a - 1)) x then a - 1
  else a - 2

/-- Round a nonnegative fraction to the nearest integer, ties to even. -/
def roundHalfEvenF (x : F2) : ℤ :=
  let q := x.1 / x.2
  let r := x.1 % x.2
  if r * 2 < x.2 then q
  else if x.2 < r * 2 then q + 1
  else if q % 2 = 0 then q else q + 1

/-- Round a positive fraction to the nearest double: scale into the
53-bit mantissa range of its binade and round to nearest, ties to even.
(Normal range only: overflow and subnormal handling are irrelevant to the
magnitudes arising here.) -/
def flPosF (x : F2) : F2 :=
  let e := fexp x
  let scaled : F2 :=
    if 0 ≤ 52 - e then (x.1 * (2 ^ (52 - e).toNat : ℤ), x.2)
    else (x.1, x.2 * (2 ^ (e - 52).toNat : ℤ))
  let m := roundHalfEvenF scaled
  if 0 ≤ 52 - e then (m, (2 ^ (52 - e).toNat : ℤ))
  else (m * (2 ^ (e - 52).toNat : ℤ), 1)

/-- Round an exact fraction to the nearest IEEE-754 double
(round-to-nearest, ties to even), as a fraction. -/
def flF (x : F2) : F2 :=
  if x.1 = 0 then (0, 1)
  else if 0 < x.1 then flPosF x
  else
    let r := flPosF (-x.1, x.2)
    (-r.1, r.2)

/-- Exact product of two fractions. -/
def fmulF (x y : F2) : F2 := (x.1 * y.1, x.2 * y.2)

/-- Exact sum of two fractions. -/
def faddF (x y : F2) : F2 := (x.1 * y.2 + y.1 * x.2, x.2 * y.2)

/-- main.py line 1328, `bonus_amount = amount * (bonus_percentage / 100)`,
under Python float semantics: `/` and `*` each round their exact result to
the nearest double.  `amount` is the double held in the `amount` variable,
`pct` the integer bonus percentage. -/
def bonusFloat (amount : F2) (pct : ℤ) : F2 :=
  flF (fmulF amount (flF (pct, 100)))

/-- main.py line 1329, `total_amount = amount + bonus_amount`, under
Python float semantics. -/
def totalFloat (amount : F2) (pct : ℤ) : F2 :=
  flF (faddF amount (bonusFloat amount pct))

/-- The rational value of a fraction. -/
def ratOfF (x : F2) : ℚ := (x.1 : ℚ) / (x.2 : ℚ)

/-- The double nearest to 1/10: the value of the Python literal `0.1`
(and of `float("0.1")`), used as a concrete payment amount. -/
def dblTenth : F2 := flF (1, 10)

/- ===================== Concrete test fixtures ========================= -/

/-- A concrete unpaid order for profile 1 and a given telegram user,
expiring at time `t`. -/
def sampleUnpaid (i : ℤ) (u : String) (t : ℤ) : Order :=
  { id := i, order_number := "ORD", profile_id := 1, amount := 50,
    bonus_amount := 2, total_amount := 52, crypto_type := some "trc20",
    currency := "USD", status := "unpaid", created_at := 0,
    expires_at := some t, booked_at := none, telegram_user_id := some u }

/-- A concrete booked order whose expiry lies in the past. -/
def sampleBooked : Order :=
  { id := 9, order_number := "ORDB", profile_id := 1, amount := 50,
    bonus_amount := 2, total_amount := 52, crypto_type := some "trc20",
    currency := "USD", status := "booked", created_at := 0,
    expires_at := some 10, booked_at := some 20,
    telegram_user_id := some "u1" }

/-- A document with two profiles and nothing else, used to exercise the
id allocation of chats and messages. -/
def twoProfilesDoc : Document :=
  { profiles := [{ id := 1, name := "Alice" }, { id := 2, name := "Bob" }] }

/-- A document with one profile, one chat of telegram user "a", and two
unpaid orders of the same profile belonging to users "a" and "b". -/
def twoUsersDoc : Document :=
  { profiles := [{ id := 1, name := "P" }]
    chats := [{ id := 1, profile_id := 1, profile_name := "P",
                telegram_user_id := some "a", created_at := 0 }]
    orders := [sampleUnpaid 1 "a" 1000, sampleUnpaid 2 "b" 1000] }

/-- A document with one profile and one unpaid order of user "a". -/
def oneOrderDoc : Document :=
  { profiles := [{ id := 1, name := "P" }]
    orders := [sampleUnpaid 1 "a" 1000] }

/-- The document obtained from `twoProfilesDoc` by a first user message to
profile 1 from telegram user "a": chat 1 and message 1 get created. -/
def chatOneDoc : Document :=
  { profiles := [{ id := 1, name := "Alice" }, { id := 2, name := "Bob" }]
    chats := [{ id := 1, profile_id := 1, profile_name := "Alice",
                telegram_user_id := some "a", created_at := 0 }]
    messages := [{ id := 1, chat_id := 1, text := "hi", is_from_user := true,
                   created_at := 0 }] }

/-- A small nonempty document standing for the previously persisted state
in the crash scenarios. -/
def persistedDoc : Document :=
  { profiles := [{ id := 1, name := "Alice" }]
    orders := [sampleUnpaid 1 "a" 1000] }

/-- The new document being saved in the crash scenarios. -/
def newDoc : Document :=
  { profiles := [{ id := 1, name := "Alice" }, { id := 2, name := "Bob" }] }

/- ======================== Helper lemmas =============================== -/

theorem length_updateFirst (p : α → Bool) (f : α → α) (l : List α) :
    (updateFirst p f l).length = l.length := by
  induction l with
  | nil => rfl
  | cons x xs ih =>
    by_cases h : p x = true <;> simp [updateFirst, h, ih]

theorem filter_updateFirst (p : α → Bool) (f : α → α) (l : List α)
    (hpf : ∀ x, p (f x) = p x) :
    ((updateFirst p f l).filter p).length = (l.filter p).length := by
  induction l with
  | nil => rfl
  | cons x xs ih =>
    simp only [updateFirst]
    by_cases h : p x = true
    · rw [if_pos h]
      simp [List.filter_cons, hpf, h]
    · rw [if_neg h]
      simp [List.filter_cons, h, ih]

theorem any_iff_filter_pos (p : α → Bool) (l : List α) :
    l.any p = true ↔ 0 < (l.filter p).length := by
  rw [List.any_eq_true, List.length_pos]
  constructor
  · rintro ⟨x, hx, hpx⟩ hnil
    have : x ∈ l.filter p := List.mem_filter.mpr ⟨hx, hpx⟩
    simp [hnil] at this
  · intro h
    rcases List.exists_mem_of_ne_nil _ h with ⟨x, hx⟩
    exact ⟨x, (List.mem_filter.mp hx).1, (List.mem_filter.mp hx).2⟩

theorem unpaidPred_quoteUpdate (pid : ℤ) (tg : Option String) (a : ℚ)
    (w : Option String) (c : String) (n : ℤ) (pct : ℚ) (o : Order) :
    unpaidPred pid tg (quoteUpdate a w c n pct o) = unpaidPred pid tg o := rfl

theorem unpaidCount_quoteOrder (pid : ℤ) (tg : Option String) (a : ℚ)
    (w : Option String) (c : String) (k : String) (n : ℤ) (d : Document) :
    unpaidCount pid tg (quoteOrder pid tg a w c k n d)
      = max (unpaidCount pid tg d) 1 := by
  by_cases hany : d.orders.any (unpaidPred pid tg) = true
  · have hpos : 0 < unpaidCount pid tg d :=
      (any_iff_filter_pos _ _).mp hany
    have hsame : unpaidCount pid tg (quoteOrder pid tg a w c k n d)
        = unpaidCount pid tg d := by
      simp only [quoteOrder, hany, if_true, unpaidCount]
      exact filter_updateFirst _ _ _ (fun o => unpaidPred_quoteUpdate _ _ _ _ _ _ _ o)
    rw [hsame]
    omega
  · rw [Bool.not_eq_true] at hany
    have hzero : unpaidCount pid tg d = 0 := by
      by_contra hne
      have := (any_iff_filter_pos (unpaidPred pid tg) d.orders).mpr
        (Nat.pos_of_ne_zero hne)
      rw [hany] at this
      exact Bool.false_ne_true this
    have hone : unpaidCount pid tg (quoteOrder pid tg a w c k n d) = 1 := by
      simp only [quoteOrder, hany, Bool.false_eq_true, if_false, unpaidCount,
        List.filter_append]
      have hnew : unpaidPred pid tg
          { id := d.orders.foldl (fun m o => max m o.id) 0 + 1
            order_number := k, profile_id := pid, amount := a
            bonus_amount := a * (d.settings.bonus_percentage.getD 5 / 100)
            total_amount := a + a * (d.settings.bonus_percentage.getD 5 / 100)
            crypto_type := w, currency := c, status := "unpaid"
            created_at := n, expires_at := some (n + 3600), booked_at := none
            telegram_user_id := tg } = true := by
        simp [unpaidPred]
      have h0 : (List.filter (unpaidPred pid tg) d.orders).length = 0 := hzero
      simp [List.length_append, h0, List.filter_cons, hnew]
    rw [hone, hzero]
    omega

theorem any_quoteOrder (pid : ℤ) (tg : Option String) (a : ℚ)
    (w : Option String) (c : String) (k : String) (n : ℤ) (d : Document) :
    (quoteOrder pid tg a w c k n d).orders.any (unpaidPred pid tg) = true := by
  have h := unpaidCount_quoteOrder pid tg a w c k n d
  have hpos : 0 < unpaidCount pid tg (quoteOrder pid tg a w c k n d) := by
    rw [h]; omega
  exact (any_iff_filter_pos _ _).mpr hpos

theorem quoteOrder_orders_of_any (pid : ℤ) (tg : Option String) (a : ℚ)
    (w : Option String) (c : String) (k : String) (n : ℤ) (d : Document)
    (h : d.orders.any (unpaidPred pid tg) = true) :
    (quoteOrder pid tg a w c k n d).orders
      = updateFirst (unpaidPred pid tg)
          (quoteUpdate a w c n (d.settings.bonus_percentage.getD 5)) d.orders := by
  simp only [quoteOrder, h, if_true]

/- ========================= Claim theorems ============================= -/

/-- C2: for every (profile, telegram user) pair, running the payment/quote
operation twice never leaves two unpaid orders for the pair (starting from
any document satisfying the at-most-one-unpaid invariant), and the second
call — finding the unpaid order left by the first — updates it in place
via `quoteUpdate` (new amount, bonus, total, wallet type, currency, and
`expires_at` reset to now + 3600) instead of appending a new order: the
order list keeps its length. -/
theorem claimC2_quote_upsert (pid : ℤ) (tg : Option String)
    (a₁ a₂ : ℚ) (w₁ w₂ : Option String) (c₁ c₂ : String) (k₁ k₂ : String)
    (n₁ n₂ : ℤ) (d : Document) (h : unpaidCount pid tg d ≤ 1) :
    unpaidCount pid tg
        (quoteOrder pid tg a₂ w₂ c₂ k₂ n₂ (quoteOrder pid tg a₁ w₁ c₁ k₁ n₁ d)) ≤ 1 ∧
    (quoteOrder pid tg a₂ w₂ c₂ k₂ n₂ (quoteOrder pid tg a₁ w₁ c₁ k₁ n₁ d)).orders
      = updateFirst (unpaidPred pid tg)
          (quoteUpdate a₂ w₂ c₂ n₂
            ((quoteOrder pid tg a₁ w₁ c₁ k₁ n₁ d).settings.bonus_percentage.getD 5))
          (quoteOrder pid tg a₁ w₁ c₁ k₁ n₁ d).orders ∧
    (quoteOrder pid tg a₂ w₂ c₂ k₂ n₂ (quoteOrder pid tg a₁ w₁ c₁ k₁ n₁ d)).orders.length
      = (quoteOrder pid tg a₁ w₁ c₁ k₁ n₁ d).orders.length := by
  have hcnt := unpaidCount_quoteOrder pid tg a₁ w₁ c₁ k₁ n₁ d
  set d₁ := quoteOrder pid tg a₁ w₁ c₁ k₁ n₁ d with hd₁
  have hany : d₁.orders.any (unpaidPred pid tg) = true := by
    rw [hd₁]; exact any_quoteOrder pid tg a₁ w₁ c₁ k₁ n₁ d
  have horders := quoteOrder_orders_of_any pid tg a₂ w₂ c₂ k₂ n₂ d₁ hany
  refine ⟨?_, horders, ?_⟩
  · rw [unpaidCount_quoteOrder, hcnt]
    omega
  · rw [horders]
    exact length_updateFirst _ _ _

/-- Witness for C2 at a concrete input: the empty document satisfies the
at-most-one-unpaid hypothesis, and the conclusion holds there. -/
theorem claimC2_quote_upsert_witness :
    unpaidCount 7 (some "u1") {} ≤ 1 ∧
    (unpaidCount 7 (some "u1")
        (quoteOrder 7 (some "u1") 60 none "USD" "K2" 10
          (quoteOrder 7 (some "u1") 50 none "USD" "K1" 0 {})) ≤ 1 ∧
     (quoteOrder 7 (some "u1") 60 none "USD" "K2" 10
        (quoteOrder 7 (some "u1") 50 none "USD" "K1" 0 {})).orders
       = updateFirst (unpaidPred 7 (some "u1"))
           (quoteUpdate 60 none "USD" 10
             ((quoteOrder 7 (some "u1") 50 none "USD" "K1" 0 {}).settings.bonus_percentage.getD 5))
           (quoteOrder 7 (some "u1") 50 none "USD" "K1" 0 {}).orders ∧
     (quoteOrder 7 (some "u1") 60 none "USD" "K2" 10
        (quoteOrder 7 (some "u1") 50 none "USD" "K1" 0 {})).orders.length
       = (quoteOrder 7 (some "u1") 50 none "USD" "K1" 0 {}).orders.length) :=
  ⟨by decide,
   claimC2_quote_upsert 7 (some "u1") 50 60 none none "USD" "USD" "K1" "K2" 0 10 {}
     (by decide)⟩

theorem updLast_of_all_not (p : α → Bool) (f : α → α) (l : List α)
    (h : l.all (fun y => !p y) = true) : updLast p f l = l := by
  induction l with
  | nil => rfl
  | cons x xs ih =>
    rw [List.all_cons, Bool.and_eq_true] at h
    have hxf : p x = false := by
      have := h.1
      simp at this
      exact this
    have hany : xs.any p = false := by
      rw [List.any_eq_false]
      intro y hy
      have := List.all_eq_true.mp h.2 y hy
      simp at this
      simp [this]
    simp [updLast, hany, hxf]

theorem updLast_decomp (p : α → Bool) (f : α → α) (l₁ l₂ : List α) (x : α)
    (hx : p x = true) (h₂ : l₂.all (fun y => !p y) = true) :
    updLast p f (l₁ ++ x :: l₂) = l₁ ++ f x :: l₂ := by
  induction l₁ with
  | nil =>
    have hany : l₂.any p = false := by
      rw [List.any_eq_false]
      intro y hy
      have := List.all_eq_true.mp h₂ y hy
      simp at this
      simp [this]
    simp [updLast, hany, hx]
  | cons a t ih =>
    have hany : (t ++ x :: l₂).any p = true :=
      List.any_eq_true.mpr ⟨x, by simp, hx⟩
    simp [updLast, hany, ih]

/-- C5 (amended): a sweep at time `now` keeps exactly the orders that are
not unpaid or carry an expiry strictly after `now`; equivalently it
removes the unpaid orders whose `expires_at` is absent or less than *or
equal to* `now`.  (The claim's strict "before now" fails at the boundary;
see the counterexample.)  In particular an unpaid order expiring at
now - 1 is removed, one expiring at now + 1 is kept, and booked orders are
always kept. -/
theorem claimC5_sweep_amended (now : ℤ) (d : Document) (o : Order)
    (h : o ∈ d.orders) :
    o ∈ (cleanupExpiredOrders now d).orders ↔
      o.status ≠ "unpaid" ∨ ∃ t, o.expires_at = some t ∧ now < t := by
  have hkeep : keepOrder now o = true ↔
      (o.status ≠ "unpaid" ∨ ∃ t, o.expires_at = some t ∧ now < t) := by
    unfold keepOrder
    cases hexp : o.expires_at with
    | none => simp [bne_iff_ne]
    | some t => simp [bne_iff_ne]
  simp [cleanupExpiredOrders, List.mem_filter, h, hkeep]

/-- Witness for C5 at concrete inputs: in a document holding an unpaid
order expiring at 101 and a booked order, a sweep at time 100 keeps the
unpaid order (expiry strictly after now). -/
theorem claimC5_sweep_amended_witness :
    sampleUnpaid 1 "u1" 101 ∈
      ({ orders := [sampleUnpaid 1 "u1" 101, sampleBooked] } : Document).orders ∧
    (sampleUnpaid 1 "u1" 101 ∈
        (cleanupExpiredOrders 100
          { orders := [sampleUnpaid 1 "u1" 101, sampleBooked] }).orders ↔
      (sampleUnpaid 1 "u1" 101).status ≠ "unpaid" ∨
        ∃ t, (sampleUnpaid 1 "u1" 101).expires_at = some t ∧ 100 < t) :=
  ⟨by decide,
   claimC5_sweep_amended 100 { orders := [sampleUnpaid 1 "u1" 101, sampleBooked] }
     (sampleUnpaid 1 "u1" 101) (by decide)⟩

/-- C5 counterexample: the claim says the sweep removes *exactly* the
unpaid orders whose `expires_at` is before `now`; but an unpaid order with
`expires_at` exactly equal to `now` — not before it — is removed as well
(the code keeps only `expires_at > now`), so the claim as stated is
false. -/
theorem claimC5_boundary_counterexample :
    (sampleUnpaid 1 "u1" 100).status = "unpaid" ∧
    (sampleUnpaid 1 "u1" 100).expires_at = some 100 ∧
    ¬ ((100 : ℤ) < 100) ∧
    (cleanupExpiredOrders 100
        ({ orders := [sampleUnpaid 1 "u1" 100] } : Document)).orders = [] := by
  refine ⟨rfl, rfl, by omega, by decide⟩

theorem sendAdminReplyFromTelegram_orders (pid : ℤ) (tg : Option String)
    (text : String) (now : ℤ) (d : Document) (pr : Profile)
    (hpr : d.profiles.find? (fun p => p.id == pid) = some pr)
    (hps : containsPaymentSuccess text = true) :
    (sendAdminReplyFromTelegram pid text tg now d).orders
      = updLast (bookPredT pid tg) (bookOrder now) d.orders := by
  simp [sendAdminReplyFromTelegram, hpr, hps]

theorem sendAdminReply_orders (pid : ℤ) (chatId : Option ℤ)
    (tg : Option String) (text : String) (now : ℤ) (d d1 : Document)
    (pr : Profile)
    (hpr : d.profiles.find? (fun p => p.id == pid) = some pr)
    (hps : containsPaymentSuccess text = true)
    (hsend : sendAdminReply pid chatId tg text now d = some d1) :
    d1.orders = updLast (bookPredH pid) (bookOrder now) d.orders := by
  by_cases ht : text = ""
  · simp [sendAdminReply, hpr, ht] at hsend
  · simp [sendAdminReply, hpr, ht, hps] at hsend
    rw [← hsend]

/-- C3 (amended): an admin reply whose text contains "payment successful"
case-insensitively books the *last-listed* (hence most recently created)
unpaid order selected by the path's own filter, setting its status to
booked and stamping `booked_at`, and touching no other order; when no
order matches, the order list is unchanged.  On the Telegram reply path
the filter is `bookPredT` — profile and, when a telegram user id is
known, that user.  On the admin HTTP reply path the filter is `bookPredH`
— the profile alone, even when a telegram user id was supplied with the
request (which is what falsifies the claim as stated; see the
counterexample). -/
theorem claimC3_reply_booking (pid : ℤ) (tg : Option String)
    (chatId : Option ℤ) (text : String) (now : ℤ) (d : Document)
    (pr : Profile)
    (hpr : d.profiles.find? (fun p => p.id == pid) = some pr)
    (hps : containsPaymentSuccess text = true) :
    ((∀ (l₁ l₂ : List Order) (o : Order),
        d.orders = l₁ ++ o :: l₂ → bookPredT pid tg o = true →
        l₂.all (fun y => !bookPredT pid tg y) = true →
        (sendAdminReplyFromTelegram pid text tg now d).orders
          = l₁ ++ bookOrder now o :: l₂) ∧
      (d.orders.all (fun y => !bookPredT pid tg y) = true →
        (sendAdminReplyFromTelegram pid text tg now d).orders = d.orders)) ∧
    ((∀ (l₁ l₂ : List Order) (o : Order) (d1 : Document),
        d.orders = l₁ ++ o :: l₂ → bookPredH pid o = true →
        l₂.all (fun y => !bookPredH pid y) = true →
        sendAdminReply pid chatId tg text now d = some d1 →
        d1.orders = l₁ ++ bookOrder now o :: l₂) ∧
      (∀ d1 : Document,
        d.orders.all (fun y => !bookPredH pid y) = true →
        sendAdminReply pid chatId tg text now d = some d1 →
        d1.orders = d.orders)) := by
  refine ⟨⟨?_, ?_⟩, ?_, ?_⟩
  · intro l₁ l₂ o hdec hpo hall
    rw [sendAdminReplyFromTelegram_orders pid tg text now d pr hpr hps, hdec]
    exact updLast_decomp _ _ _ _ _ hpo hall
  · intro hall
    rw [sendAdminReplyFromTelegram_orders pid tg text now d pr hpr hps]
    exact updLast_of_all_not _ _ _ hall
  · intro l₁ l₂ o d1 hdec hpo hall hsend
    rw [sendAdminReply_orders pid chatId tg text now d d1 pr hpr hps hsend, hdec]
    exact updLast_decomp _ _ _ _ _ hpo hall
  · intro d1 hall hsend
    rw [sendAdminReply_orders pid chatId tg text now d d1 pr hpr hps hsend]
    exact updLast_of_all_not _ _ _ hall

/-- Witness for C3 at concrete inputs: in a document with one unpaid order
of user "a" for profile 1, a Telegram admin reply "payment successful"
without a known telegram user books that order. -/
theorem claimC3_reply_booking_witness :
    oneOrderDoc.profiles.find? (fun p => p.id == 1) = some { id := 1, name := "P" } ∧
    containsPaymentSuccess "payment successful" = true ∧
    (sendAdminReplyFromTelegram 1 "payment successful" none 9 oneOrderDoc).orders
      = [] ++ bookOrder 9 (sampleUnpaid 1 "a" 1000) :: [] :=
  ⟨by decide, by decide,
   (claimC3_reply_booking 1 none none "payment successful" 9 oneOrderDoc
       { id := 1, name := "P" } (by decide) (by decide)).1.1
     [] [] (sampleUnpaid 1 "a" 1000) rfl (by decide) (by decide)⟩

/-- C3 counterexample: the claim says the booked order is selected by the
(profile_id, external_user_id) filter.  On the admin HTTP reply path the
telegram user id is ignored: with two unpaid orders for profile 1 owned by
users "a" and "b", a reply addressed to user "a" containing
"Payment successful" books user "b"'s order (the latest unpaid order of
the profile), not user "a"'s. -/
theorem claimC3_counterexample :
    (sendAdminReply 1 none (some "a") "Payment successful" 5 twoUsersDoc).map
        (fun d => d.orders)
      = some [sampleUnpaid 1 "a" 1000, bookOrder 5 (sampleUnpaid 2 "b" 1000)] ∧
    (sampleUnpaid 2 "b" 1000).telegram_user_id ≠ some "a" ∧
    (bookOrder 5 (sampleUnpaid 2 "b" 1000)).status = "booked" ∧
    (sampleUnpaid 1 "a" 1000).status = "unpaid" := by
  refine ⟨by decide, by decide, rfl, rfl⟩

/-- C8 counterexample: chat and message ids are allocated as
`len(collection) + 1`, so they are not monotonic across deletions.
Starting from two profiles: a first message creates chat 1, a second (for
the other profile and user) creates chat 2; deleting profile 1 cascades
away chat 1 and its message; the next new chat is then allocated id
`len([chat 2]) + 1 = 2` — equal to, not strictly greater than, the id of
the previously created (and still existing) chat 2.  The same reuse
happens for message ids (both remaining messages carry id 2). -/
theorem claimC8_counterexample :
    (let d1 := (sendMessage 1 (some "a") "hi" 0 twoProfilesDoc).getD twoProfilesDoc
     let d2 := (sendMessage 2 (some "b") "hi" 1 d1).getD d1
     let d3 := deleteProfile 1 d2
     let d4 := (sendMessage 2 (some "c") "hi" 3 d3).getD d3
     d2.chats.map (fun c => c.id) = [1, 2] ∧
       d4.chats.map (fun c => c.id) = [2, 2] ∧
       d4.messages.map (fun m => m.id) = [2, 2]) := by
  decide

/-- C8 (amended): chat and message ids are allocated as the collection's
current length plus one.  Under the invariant that every existing id is at
most the collection's length — which holds along any operation history
without deletions — a `send_message` call gives any newly created chat an
id strictly greater than every existing chat id and the new message an id
strictly greater than every existing message id, and it preserves the
invariant.  A cascade profile deletion shrinks the collections and breaks
the invariant, after which ids are reused (see the counterexample). -/
theorem claimC8_id_allocation (pid : ℤ) (tg : Option String) (text : String)
    (now : ℤ) (d d1 : Document)
    (hc : ∀ c ∈ d.chats, c.id ≤ (d.chats.length : ℤ))
    (hm : ∀ m ∈ d.messages, m.id ≤ (d.messages.length : ℤ))
    (hd1 : sendMessage pid tg text now d = some d1) :
    (∀ m1 ∈ d1.messages, m1 ∈ d.messages ∨ ∀ m ∈ d.messages, m.id < m1.id) ∧
      (∀ c1 ∈ d1.chats, c1 ∈ d.chats ∨ ∀ c ∈ d.chats, c.id < c1.id) ∧
      (∀ c1 ∈ d1.chats, c1.id ≤ (d1.chats.length : ℤ)) ∧
      (∀ m1 ∈ d1.messages, m1.id ≤ (d1.messages.length : ℤ)) := by
  rcases hfp : d.profiles.find? (fun p => p.id == pid) with _ | pr
  · simp only [sendMessage, hfp] at hd1
    exact Option.noConfusion hd1
  · rcases hfc : d.chats.find?
        (fun c => c.profile_id == pid && c.telegram_user_id == tg) with _ | chat
    · simp only [sendMessage, hfp, hfc, Option.some.injEq] at hd1
      subst hd1
      refine ⟨?_, ?_, ?_, ?_⟩
      · intro m1 hm1
        rcases List.mem_append.mp hm1 with h | h
        · exact Or.inl h
        · refine Or.inr fun m hmem => ?_
          have hb := hm m hmem
          simp only [List.mem_singleton] at h
          rw [h]
          show m.id < (d.messages.length : ℤ) + 1
          omega
      · intro c1 hc1
        rcases List.mem_append.mp hc1 with h | h
        · exact Or.inl h
        · refine Or.inr fun c hmem => ?_
          have hb := hc c hmem
          simp only [List.mem_singleton] at h
          rw [h]
          show c.id < (d.chats.length : ℤ) + 1
          omega
      · intro c1 hc1
        simp only [List.length_append, List.length_cons, List.length_nil]
        rcases List.mem_append.mp hc1 with h | h
        · have hb := hc c1 h
          push_cast
          omega
        · simp only [List.mem_singleton] at h
          rw [h]
          show (d.chats.length : ℤ) + 1 ≤ ((d.chats.length + (0 + 1) : ℕ) : ℤ)
          push_cast
          omega
      · intro m1 hm1
        simp only [List.length_append, List.length_cons, List.length_nil]
        rcases List.mem_append.mp hm1 with h | h
        · have hb := hm m1 h
          push_cast
          omega
        · simp only [List.mem_singleton] at h
          rw [h]
          show (d.messages.length : ℤ) + 1 ≤ ((d.messages.length + (0 + 1) : ℕ) : ℤ)
          push_cast
          omega
    · simp only [sendMessage, hfp, hfc, Option.some.injEq] at hd1
      subst hd1
      refine ⟨?_, ?_, ?_, ?_⟩
      · intro m1 hm1
        rcases List.mem_append.mp hm1 with h | h
        · exact Or.inl h
        · refine Or.inr fun m hmem => ?_
          have hb := hm m hmem
          simp only [List.mem_singleton] at h
          rw [h]
          show m.id < (d.messages.length : ℤ) + 1
          omega
      · intro c1 hc1
        exact Or.inl hc1
      · intro c1 hc1
        exact hc c1 hc1
      · intro m1 hm1
        simp only [List.length_append, List.length_cons, List.length_nil]
        rcases List.mem_append.mp hm1 with h | h
        · have hb := hm m1 h
          push_cast
          omega
        · simp only [List.mem_singleton] at h
          rw [h]
          show (d.messages.length : ℤ) + 1 ≤ ((d.messages.length + (0 + 1) : ℕ) : ℤ)
          push_cast
          omega

/-- Witness for C8 at a concrete input: the two-profile document with no
chats or messages satisfies the id invariant, a first message succeeds and
creates chat 1 and message 1, and the conclusion holds there. -/
theorem claimC8_id_allocation_witness :
    (∀ c ∈ twoProfilesDoc.chats, c.id ≤ (twoProfilesDoc.chats.length : ℤ)) ∧
    (∀ m ∈ twoProfilesDoc.messages, m.id ≤ (twoProfilesDoc.messages.length : ℤ)) ∧
    sendMessage 1 (some "a") "hi" 0 twoProfilesDoc = some chatOneDoc ∧
    ((∀ m1 ∈ chatOneDoc.messages, m1 ∈ twoProfilesDoc.messages ∨
        ∀ m ∈ twoProfilesDoc.messages, m.id < m1.id) ∧
      (∀ c1 ∈ chatOneDoc.chats, c1 ∈ twoProfilesDoc.chats ∨
        ∀ c ∈ twoProfilesDoc.chats, c.id < c1.id) ∧
      (∀ c1 ∈ chatOneDoc.chats, c1.id ≤ (chatOneDoc.chats.length : ℤ)) ∧
      (∀ m1 ∈ chatOneDoc.messages, m1.id ≤ (chatOneDoc.messages.length : ℤ))) :=
  ⟨by decide, by decide, by decide,
   claimC8_id_allocation 1 (some "a") "hi" 0 twoProfilesDoc chatOneDoc
     (by decide) (by decide) (by decide)⟩

theorem getD_set_self (l : List α) (i : ℕ) (x dflt : α) (h : i < l.length) :
    (l.set i x).getD i dflt = x := by
  induction l generalizing i with
  | nil => simp at h
  | cons a t ih =>
    cases i with
    | zero => rfl
    | succ j =>
      show (t.set j x).getD j dflt = x
      exact ih j (by simpa using h)

/-- C10: deleting a profile removes exactly that profile, its chats, the
messages whose chat id references one of those chats, and its comments;
orders (unpaid or booked alike), settings, promocodes and vip profiles are
untouched — so surviving orders may afterwards reference a profile id that
no longer exists. -/
theorem claimC10_delete_cascade (pid : ℤ) (d : Document) :
    (∀ p : Profile, p ∈ (deleteProfile pid d).profiles ↔
        p ∈ d.profiles ∧ p.id ≠ pid) ∧
    (∀ c : Chat, c ∈ (deleteProfile pid d).chats ↔
        c ∈ d.chats ∧ c.profile_id ≠ pid) ∧
    (∀ m : Message, m ∈ (deleteProfile pid d).messages ↔
        m ∈ d.messages ∧ ¬ ∃ c, c ∈ d.chats ∧ c.profile_id = pid ∧ c.id = m.chat_id) ∧
    (∀ cm : Comment, cm ∈ (deleteProfile pid d).comments ↔
        cm ∈ d.comments ∧ cm.profile_id ≠ pid) ∧
    (deleteProfile pid d).orders = d.orders ∧
    (deleteProfile pid d).settings = d.settings ∧
    (deleteProfile pid d).promocodes = d.promocodes ∧
    (deleteProfile pid d).vip_profiles = d.vip_profiles := by
  refine ⟨?_, ?_, ?_, ?_, rfl, rfl, rfl, rfl⟩
  · intro p
    simp [deleteProfile, List.mem_filter, bne_iff_ne]
  · intro c
    simp [deleteProfile, List.mem_filter, bne_iff_ne]
  · intro m
    simp only [deleteProfile, List.mem_filter, Bool.not_eq_true']
    constructor
    · rintro ⟨hmem, hnc⟩
      refine ⟨hmem, ?_⟩
      rintro ⟨c, hc, hcp, hci⟩
      have hmm : m.chat_id ∈ (d.chats.filter (fun c => c.profile_id == pid)).map
          (fun c => c.id) :=
        List.mem_map.mpr ⟨c, List.mem_filter.mpr ⟨hc, by simp [hcp]⟩, hci⟩
      have hcon : (List.map (fun c => c.id)
          (List.filter (fun c => c.profile_id == pid) d.chats)).contains
            m.chat_id = true := List.elem_iff.mpr hmm
      rw [hcon] at hnc
      exact Bool.noConfusion hnc
    · rintro ⟨hmem, hnc⟩
      refine ⟨hmem, ?_⟩
      rw [← Bool.not_eq_true]
      intro hx
      rcases List.mem_map.mp (List.elem_iff.mp hx) with ⟨c, hcf, hci⟩
      rcases List.mem_filter.mp hcf with ⟨hc, hcp⟩
      exact hnc ⟨c, hc, by simpa using hcp, hci⟩
  · intro cm
    simp [deleteProfile, List.mem_filter, bne_iff_ne]

/-- C1 (amended): in the public process, `save_data` writes the new
document to a temporary sibling, then *removes* the canonical file and
renames the temp file into place.  A crash while the temp file is being
written leaves the previously persisted document intact; but a crash in
the window between the remove and the rename leaves *no* canonical file,
so a subsequent reader gets the empty default document.  In the admin
process, `save_data` rewrites the canonical file in place with no
temporary file: a crash mid-write leaves a truncated (partially written)
canonical file, which a reader sees as the corrupt-file fallback.  Only a
completed save yields the new document. -/
theorem claimC1_save_crash (dOld dNew : Document) (fs : FS)
    (h : fs.canonical = some (.full dOld)) :
    (∀ s ∈ (mainSaveStates dNew fs).take 3, readDocument s = dOld) ∧
    readDocument ((mainSaveStates dNew fs).getD 3 fs) = defaultDataMain ∧
    readDocument ((mainSaveStates dNew fs).getD 4 fs) = dNew ∧
    readDocument ((adminSaveStates dNew fs).getD 0 fs) = dOld ∧
    readDocument ((adminSaveStates dNew fs).getD 1 fs) = errorDataMain ∧
    readDocument ((adminSaveStates dNew fs).getD 2 fs) = dNew := by
  obtain ⟨fc, ft⟩ := fs
  simp only at h
  subst h
  refine ⟨?_, rfl, rfl, rfl, rfl, rfl⟩
  intro s hs
  simp only [mainSaveStates, List.take, List.mem_cons, List.not_mem_nil,
    or_false] at hs
  rcases hs with rfl | rfl | rfl <;> rfl

/-- Witness for C1 at concrete inputs: a filesystem holding a persisted
document, over which a save of a new document is attempted. -/
theorem claimC1_save_crash_witness :
    (FS.mk (some (.full persistedDoc)) none).canonical
        = some (.full persistedDoc) ∧
    ((∀ s ∈ (mainSaveStates newDoc (FS.mk (some (.full persistedDoc)) none)).take 3,
        readDocument s = persistedDoc) ∧
      readDocument ((mainSaveStates newDoc (FS.mk (some (.full persistedDoc)) none)).getD 3
          (FS.mk (some (.full persistedDoc)) none)) = defaultDataMain ∧
      readDocument ((mainSaveStates newDoc (FS.mk (some (.full persistedDoc)) none)).getD 4
          (FS.mk (some (.full persistedDoc)) none)) = newDoc ∧
      readDocument ((adminSaveStates newDoc (FS.mk (some (.full persistedDoc)) none)).getD 0
          (FS.mk (some (.full persistedDoc)) none)) = persistedDoc ∧
      readDocument ((adminSaveStates newDoc (FS.mk (some (.full persistedDoc)) none)).getD 1
          (FS.mk (some (.full persistedDoc)) none)) = errorDataMain ∧
      readDocument ((adminSaveStates newDoc (FS.mk (some (.full persistedDoc)) none)).getD 2
          (FS.mk (some (.full persistedDoc)) none)) = newDoc) :=
  ⟨rfl, claimC1_save_crash persistedDoc newDoc
          (FS.mk (some (.full persistedDoc)) none) rfl⟩

/-- C1 counterexample: the claim says a crash at *any* point during Save
leaves the previously persisted document intact and readable, in both
processes.  In the public process, the state after `os.remove` and before
`os.rename` has no canonical file at all, and a reader gets the default
empty document, not the persisted one.  In the admin process, the state
mid-write is a truncated canonical file — a reader observes a partially
written document and falls back to the corrupt-file document.  Both refute
the claim. -/
theorem claimC1_counterexample :
    ((mainSaveStates newDoc (FS.mk (some (.full persistedDoc)) none)).getD 3
        (FS.mk (some (.full persistedDoc)) none)).canonical = none ∧
    readDocument ((mainSaveStates newDoc (FS.mk (some (.full persistedDoc)) none)).getD 3
        (FS.mk (some (.full persistedDoc)) none)) = defaultDataMain ∧
    defaultDataMain ≠ persistedDoc ∧
    ((adminSaveStates newDoc (FS.mk (some (.full persistedDoc)) none)).getD 1
        (FS.mk (some (.full persistedDoc)) none)).canonical = some .truncated ∧
    readDocument ((adminSaveStates newDoc (FS.mk (some (.full persistedDoc)) none)).getD 1
        (FS.mk (some (.full persistedDoc)) none)) = errorDataMain ∧
    errorDataMain ≠ persistedDoc := by
  refine ⟨rfl, rfl, by decide, rfl, rfl, by decide⟩

/-- C7: a corrupt (unparseable) backing file never makes `load_data`
raise: each process catches the error and substitutes its fixed fallback
document, whose collections are all empty (the fallback settings are the
respective process's hardcoded defaults).  Totality of `loadDataMain` and
`loadDataAdmin` models "never raised to the caller". -/
theorem claimC7_corrupt_fallback :
    loadDataMain (some .truncated) = errorDataMain ∧
    errorDataMain.profiles = [] ∧ errorDataMain.chats = [] ∧
    errorDataMain.messages = [] ∧ errorDataMain.orders = [] ∧
    errorDataMain.comments = [] ∧ errorDataMain.vip_profiles = [] ∧
    errorDataMain.promocodes = [] ∧
    loadDataAdmin (some .truncated) = errorDataAdmin ∧
    errorDataAdmin.profiles = [] ∧ errorDataAdmin.chats = [] ∧
    errorDataAdmin.messages = [] ∧ errorDataAdmin.orders = [] ∧
    errorDataAdmin.comments = [] ∧ errorDataAdmin.vip_profiles = [] ∧
    errorDataAdmin.promocodes = [] :=
  ⟨rfl, rfl, rfl, rfl, rfl, rfl, rfl, rfl, rfl, rfl, rfl, rfl, rfl, rfl,
   rfl, rfl⟩

/-- C9 (amended): a payment request whose `profile_id` key is present but
falsy (null or 0) or whose amount is non-positive is rejected with
HTTP 400 — a client error — before any mutation, and the persisted
document is untouched.  (A request with the key absent aborts with a
KeyError instead, a server error — see the counterexample — but the
document is equally untouched.) -/
theorem claimC9_validation (req : PaymentReq) (tg : Option String)
    (code : String) (now : ℤ) (d : Document) (pidv : Option ℤ) (a : ℚ)
    (hp : req.profile_id = some pidv) (ha : req.amount = some a)
    (hbad : truthyOptInt pidv = false ∨ a ≤ 0) :
    processCryptoPayment req tg code now d = .error .badRequest ∧
    PayErr.isClientError .badRequest = true ∧
    paymentEndpoint req tg code now d = (d, some .badRequest) := by
  have hmain : processCryptoPayment req tg code now d = .error .badRequest := by
    unfold processCryptoPayment
    rw [hp, ha]
    rcases pidv with _ | k
    · rfl
    · rcases hbad with hb | hb
      · have hk : k = 0 := by
          simp [truthyOptInt] at hb
          exact hb
        subst hk
        simp
      · simp [hb]
  refine ⟨hmain, rfl, ?_⟩
  unfold paymentEndpoint
  rw [hmain]

/-- Witness for C9 at a concrete input: profile id present (3) but the
amount is -2, a non-positive value. -/
theorem claimC9_validation_witness :
    (PaymentReq.mk (some (some 3)) (some (-2)) none none).profile_id
        = some (some 3) ∧
    (PaymentReq.mk (some (some 3)) (some (-2)) none none).amount = some (-2) ∧
    (processCryptoPayment (PaymentReq.mk (some (some 3)) (some (-2)) none none)
        none "C" 0 persistedDoc = .error .badRequest ∧
      PayErr.isClientError .badRequest = true ∧
      paymentEndpoint (PaymentReq.mk (some (some 3)) (some (-2)) none none)
          none "C" 0 persistedDoc = (persistedDoc, some .badRequest)) :=
  ⟨rfl, rfl,
   claimC9_validation (PaymentReq.mk (some (some 3)) (some (-2)) none none)
     none "C" 0 persistedDoc (some 3) (-2) rfl rfl (Or.inr (by norm_num))⟩

/-- C9 counterexample: the claim says a request with a *missing* profile
id is rejected with a *client* error.  A request body without the
`profile_id` key makes `payment_data["profile_id"]` raise an uncaught
KeyError, surfaced as a 500 server error, not a client error (the document
is still untouched). -/
theorem claimC9_counterexample :
    processCryptoPayment (PaymentReq.mk none (some 5) none none) none "C" 0
        persistedDoc = .error .keyError ∧
    PayErr.isClientError .keyError = false ∧
    paymentEndpoint (PaymentReq.mk none (some 5) none none) none "C" 0
        persistedDoc = (persistedDoc, some .keyError) :=
  ⟨rfl, rfl, rfl⟩

/-- C4 (amended): `load_data` returns a *shallow* copy of the cached
document: `dict.copy()` yields a fresh top-level mapping holding the same
references to the nested collections, so an in-place mutation of a nested
collection (here appending an order) through the returned document is
visible through the store's cached document. -/
theorem claimC4_shallow_copy (s : StoreState) (o : Order)
    (h : s.cache.ordersA < s.heap.orderObjs.length) :
    dictCopy s.cache = s.cache ∧
    ordersView (appendOrderViaDict s.heap (loadCacheHit s) o) s.cache
      = ordersView s.heap s.cache ++ [o] := by
  refine ⟨rfl, ?_⟩
  unfold appendOrderViaDict loadCacheHit dictCopy ordersView
  exact getD_set_self _ _ _ _ h

/-- Witness for C4 at a concrete input: a store whose cache references the
single (empty) orders object at address 0. -/
theorem claimC4_shallow_copy_witness :
    (StoreState.mk (PyHeap.mk [[]] [[]]) (DocDict.mk 0 0)).cache.ordersA
        < (StoreState.mk (PyHeap.mk [[]] [[]]) (DocDict.mk 0 0)).heap.orderObjs.length ∧
    (dictCopy (StoreState.mk (PyHeap.mk [[]] [[]]) (DocDict.mk 0 0)).cache
        = (StoreState.mk (PyHeap.mk [[]] [[]]) (DocDict.mk 0 0)).cache ∧
      ordersView
          (appendOrderViaDict (StoreState.mk (PyHeap.mk [[]] [[]]) (DocDict.mk 0 0)).heap
            (loadCacheHit (StoreState.mk (PyHeap.mk [[]] [[]]) (DocDict.mk 0 0)))
            (sampleUnpaid 1 "a" 10))
          (StoreState.mk (PyHeap.mk [[]] [[]]) (DocDict.mk 0 0)).cache
        = ordersView (StoreState.mk (PyHeap.mk [[]] [[]]) (DocDict.mk 0 0)).heap
            (StoreState.mk (PyHeap.mk [[]] [[]]) (DocDict.mk 0 0)).cache
            ++ [sampleUnpaid 1 "a" 10]) :=
  ⟨by decide,
   claimC4_shallow_copy (StoreState.mk (PyHeap.mk [[]] [[]]) (DocDict.mk 0 0))
     (sampleUnpaid 1 "a" 10) (by decide)⟩

/-- C4 counterexample: the claim says mutating any part of the returned
document — including nested collections — does not change the store's
cached document.  But after a cache-hit Load, appending an order through
the returned shallow copy changes what the cached document shows: the
cache's orders view goes from `[]` to the appended order. -/
theorem claimC4_counterexample :
    ordersView
        (appendOrderViaDict (PyHeap.mk [[]] [[]])
          (loadCacheHit (StoreState.mk (PyHeap.mk [[]] [[]]) (DocDict.mk 0 0)))
          (sampleUnpaid 1 "a" 10))
        (DocDict.mk 0 0)
      = [sampleUnpaid 1 "a" 10] ∧
    ordersView (PyHeap.mk [[]] [[]]) (DocDict.mk 0 0) = [] ∧
    ordersView
        (appendOrderViaDict (PyHeap.mk [[]] [[]])
          (loadCacheHit (StoreState.mk (PyHeap.mk [[]] [[]]) (DocDict.mk 0 0)))
          (sampleUnpaid 1 "a" 10))
        (DocDict.mk 0 0)
      ≠ ordersView (PyHeap.mk [[]] [[]]) (DocDict.mk 0 0) := by
  refine ⟨by decide, rfl, by decide⟩

/-- C6 (amended): the bonus and total are computed in IEEE-754 double
arithmetic — `bonus_amount` is the rounded product of `amount` with the
rounded quotient pct/100, and `total_amount` the rounded sum — so for the
claimed instance amount = 100 with the default 5 percent the computation
is exact: the bonus equals the exact product 100 × 5/100 = 5 and the
total equals exactly 105.00; accordingly the order created by the quote
operation for amount 100 on a document without a stored bonus percentage
carries total 105 exactly.  (For general amounts the rounded bonus can
differ from the exact product — see the counterexample.) -/
theorem claimC6_bonus_total :
    ratOfF (bonusFloat (100, 1) 5) = 100 * (5 / 100) ∧
    ratOfF (totalFloat (100, 1) 5) = 105 ∧
    (quoteOrder 1 (some "u1") 100 none "USD" "C" 0 {}).orders.map
        (fun o => o.total_amount) = [105] := by
  have h1 : bonusFloat (100, 1) 5 = (5629499534213120, 1125899906842624) := by
    decide
  have h2 : totalFloat (100, 1) 5 = (7388718138654720, 70368744177664) := by
    decide
  refine ⟨?_, ?_, ?_⟩
  · rw [h1]
    unfold ratOfF
    norm_num
  · rw [h2]
    unfold ratOfF
    norm_num
  · have hq : (quoteOrder 1 (some "u1") 100 none "USD" "C" 0 {}).orders.map
        (fun o => o.total_amount) = [(100 : ℚ) + 100 * (5 / 100)] := by
      simp [quoteOrder]
    rw [hq, show (100 : ℚ) + 100 * (5 / 100) = 105 by norm_num]

set_option maxRecDepth 8000 in
/-- C6 counterexample: the claim says every created order satisfies
bonus_amount = amount × bonus_percentage/100 exactly.  For the perfectly
ordinary amount 0.1 (the double nearest 1/10) with the default 5 percent,
the double-rounded bonus differs from the exact product: the product of
the two doubles needs 104 mantissa bits and is rounded. -/
theorem claimC6_counterexample :
    ratOfF (bonusFloat dblTenth 5) ≠ ratOfF dblTenth * (5 / 100) := by
  have h1 : bonusFloat dblTenth 5 = (5764607523034236, 1152921504606846976) := by
    decide
  have h2 : dblTenth = (7205759403792794, 72057594037927936) := by decide
  rw [h1, h2]
  unfold ratOfF
  norm_num
